import Mathlib

/-!
Shallow embedding of the FutureSDR soapy configuration core:
the dynamic `Pmt` value type (pmt/src/lib.rs), the legacy map conversion
(src/blocks/soapy/config.rs) and the scoped apply engine
(src/blocks/soapy/mod.rs), together with theorems settling the claims
about them.

Machine floats (f32/f64) are modelled as either NaN or an exact rational
value; none of the embedded code performs float arithmetic, values only
flow through unchanged, so exact rationals are faithful (rounding of huge
u64 values in `as f64` casts is not modelled).
-/

namespace FutureSDR

/-- Model of a Rust floating point value (f32 or f64): NaN or a finite
value, represented exactly as a rational. Signed zeros and infinities are
collapsed into the finite case; the embedded code never computes with
these values. -/
inductive Rf where
  | nan
  | fin (q : ℚ)
deriving DecidableEq, Repr

/-- Rust float equality (PartialEq on f32/f64): NaN compares unequal to
everything, including itself; finite values compare by value. -/
def Rf.beq : Rf → Rf → Bool
  | .fin x, .fin y => x == y
  | _, _ => false

/-- `SoapyConfigDir` from src/blocks/soapy/config.rs (lines 58-68). -/
inductive SoapyConfigDir where
  | Default
  | Rx
  | Tx
  | Both
deriving DecidableEq, Repr

/-- `SoapyConfigDir::is_rx` (config.rs lines 71-77). -/
def SoapyConfigDir.is_rx : SoapyConfigDir → Bool
  | .Rx => true
  | .Both => true
  | _ => false

/-- `SoapyConfigDir::is_tx` (config.rs lines 79-85). -/
def SoapyConfigDir.is_tx : SoapyConfigDir → Bool
  | .Tx => true
  | .Both => true
  | _ => false

/-- The struct `SoapyConfig` from src/blocks/soapy/config.rs (lines
95-124), with the Default values of the derive. -/
structure SoapyConfig where
  chan : Option Nat := none
  dir : SoapyConfigDir := .Default
  sample_rate : Option Rf := none
  freq : Option Rf := none
  gain : Option Rf := none
  antenna : Option String := none
  bandwidth : Option Rf := none
deriving DecidableEq, Repr

/-- Model of `Box<dyn PmtAny>` (pmt/src/lib.rs): a type-erased, cloneable
payload, downcastable by runtime type. We carry the payload type the
embedded code downcasts to, plus a case standing for a box of any other
type, identified by a type tag (the runtime type comparison of
`Any::downcast_ref`). -/
inductive AnyPayload where
  | soapyConfig (c : SoapyConfig)
  | other (typeTag : String)
deriving DecidableEq, Repr

/-- `downcast_ref::<SoapyConfig>()` on a boxed payload: the typed value on
a tag match, none otherwise. -/
def AnyPayload.downcastSoapyConfig : AnyPayload → Option SoapyConfig
  | .soapyConfig c => some c
  | .other _ => none

/-- Abbreviation for the string type, usable inside the `Pmt` declaration
where the constructor named `String` would otherwise shadow it. -/
abbrev StrT := String

/-- The `Pmt` enum from pmt/src/lib.rs (lines 79-96). `u32`/`u64`/bytes
are carried as `Nat` (the embedded code performs no arithmetic on them);
the `HashMap<String, Pmt>` is carried as an association list with unique
keys, in some iteration order. -/
inductive Pmt where
  | Null
  | String (s : StrT)
  | U32 (v : Nat)
  | U64 (v : Nat)
  | F32 (v : Rf)
  | F64 (v : Rf)
  | VecF32 (v : List Rf)
  | VecU64 (v : List Nat)
  | Blob (v : List Nat)
  | VecPmt (v : List Pmt)
  | MapStrPmt (m : List (StrT × Pmt))
  | Any (a : AnyPayload)
  | AnySerde (a : AnyPayload)

/-- Elementwise list equality by a given element comparison (Rust
`Vec<T> == Vec<T>` for a `PartialEq` element type). -/
def listEqBy (f : α → β → Bool) : List α → List β → Bool
  | [], [] => true
  | a :: as, b :: bs => f a b && listEqBy f as bs
  | _, _ => false

/-- Key lookup in the association-list model of `HashMap<String, Pmt>`
(`HashMap::get`). -/
def pmtLookup (k : String) : List (String × Pmt) → Option Pmt
  | [] => none
  | (k2, v) :: rest => if k2 == k then some v else pmtLookup k rest

mutual

/-- `PartialEq for Pmt` (pmt/src/lib.rs lines 98-116): structural,
variant by variant, with a catch-all arm returning false; the catch-all
covers mismatched variants and the `Any`/`AnySerde` cases, which are
therefore never equal to anything, themselves included. -/
def Pmt.beq : Pmt → Pmt → Bool
  | .Null, .Null => true
  | .String x, .String y => x == y
  | .U32 x, .U32 y => x == y
  | .U64 x, .U64 y => x == y
  | .F32 x, .F32 y => Rf.beq x y
  | .F64 x, .F64 y => Rf.beq x y
  | .VecF32 x, .VecF32 y => listEqBy Rf.beq x y
  | .VecU64 x, .VecU64 y => x == y
  | .Blob x, .Blob y => x == y
  | .VecPmt x, .VecPmt y => Pmt.vecBeq x y
  | .MapStrPmt x, .MapStrPmt y => x.length == y.length && Pmt.mapSub x y
  | _, _ => false

/-- Elementwise `Vec<Pmt>` equality (slice PartialEq: equal lengths and
equal elements). -/
def Pmt.vecBeq : List Pmt → List Pmt → Bool
  | [], [] => true
  | a :: as, b :: bs => Pmt.beq a b && Pmt.vecBeq as bs
  | _, _ => false

/-- The quantifier half of `HashMap` equality: every key of the first map
is present in the second with an equal value. -/
def Pmt.mapSub : List (StrT × Pmt) → List (StrT × Pmt) → Bool
  | [], _ => true
  | (k, v) :: rest, y =>
    (match pmtLookup k y with
     | some w => Pmt.beq v w
     | none => false) && Pmt.mapSub rest y

end

/-- Variant discriminant of a `Pmt`, used to state that values of
different variants never compare equal. -/
def Pmt.tag : Pmt → Nat
  | .Null => 0
  | .String _ => 1
  | .U32 _ => 2
  | .U64 _ => 3
  | .F32 _ => 4
  | .F64 _ => 5
  | .VecF32 _ => 6
  | .VecU64 _ => 7
  | .Blob _ => 8
  | .VecPmt _ => 9
  | .MapStrPmt _ => 10
  | .Any _ => 11
  | .AnySerde _ => 12

/-- Whether a `Pmt` holds one of the four numeric variants accepted by
the numeric coercions. -/
def Pmt.isNumeric : Pmt → Bool
  | .F64 _ | .F32 _ | .U32 _ | .U64 _ => true
  | _ => false

/-- `pmt_to_f64` (src/blocks/soapy/config.rs lines 7-16): widen F64, F32,
U32, U64 to an f64, fail on every other variant. The f32 to f64 widening
is exact, so it is the identity on the float model; u64 values above 2^53
would round in the real cast, which the exact model elides. The source
message reads with an apostrophe, elided here. -/
def pmt_to_f64 : Pmt → Except String Rf
  | .F64 v => .ok v
  | .F32 v => .ok v
  | .U32 v => .ok (.fin v)
  | .U64 v => .ok (.fin v)
  | _ => .error "cant convert PMT to f64"

/-- Rust `as usize` on a float: truncate toward zero and saturate to the
usize range; NaN casts to 0. -/
def Rf.toUsize : Rf → Nat
  | .nan => 0
  | .fin q => if q ≤ 0 then 0 else min q.floor.toNat (2 ^ 64 - 1)

/-- `pmt_to_usize` (src/blocks/soapy/config.rs lines 19-28): same accepted
variants, narrowing with `as usize`. -/
def pmt_to_usize : Pmt → Except String Nat
  | .F64 v => .ok v.toUsize
  | .F32 v => .ok v.toUsize
  | .U32 v => .ok v
  | .U64 v => .ok v
  | _ => .error "cant convert PMT to usize"

/-- One iteration of the map loop in `TryFrom<Pmt> for SoapyConfig`
(src/blocks/soapy/config.rs lines 148-162): dispatch on the key name.
Recognized numeric keys propagate the conversion error of their value
(the source applies the question-mark operator to `pmt_to_f64` /
`pmt_to_usize`); the catch-all arm logs a warning and leaves the
configuration unchanged. -/
def applyMapEntry (cfg : SoapyConfig) (n : String) (v : Pmt) :
    Except String SoapyConfig :=
  match n, v with
  | "antenna", .String s => .ok { cfg with antenna := some s }
  | "bandwidth", p => do .ok { cfg with bandwidth := some (← pmt_to_f64 p) }
  | "chan", p => do .ok { cfg with chan := some (← pmt_to_usize p) }
  | "freq", p => do .ok { cfg with freq := some (← pmt_to_f64 p) }
  | "gain", p => do .ok { cfg with gain := some (← pmt_to_f64 p) }
  | "rate", p => do .ok { cfg with sample_rate := some (← pmt_to_f64 p) }
  | _, _ => .ok cfg

/-- The entry loop of `TryFrom<Pmt> for SoapyConfig` over the map entries
in iteration order, starting from a given configuration. -/
def tryFromEntries (cfg : SoapyConfig) :
    List (String × Pmt) → Except String SoapyConfig
  | [] => .ok cfg
  | (n, v) :: rest => do tryFromEntries (← applyMapEntry cfg n v) rest

/-- `TryFrom<Pmt> for SoapyConfig` (src/blocks/soapy/config.rs lines
134-168): a boxed `Any` downcasts directly, a string-keyed map goes
through the entry loop starting from the default configuration, and any
other variant is rejected. -/
def SoapyConfig.try_from : Pmt → Except String SoapyConfig
  | .Any a =>
    match a.downcastSoapyConfig with
    | some c => .ok c
    | none => .error "downcast failed"
  | .MapStrPmt m => tryFromEntries {} m
  | _ => .error "cannot convert this PMT"

/-- `soapysdr::Direction`: the concrete device-facing direction, exactly
Rx or Tx. -/
inductive Dir where
  | Rx
  | Tx
deriving DecidableEq, Repr

/-- A call issued to the soapy device backend, with its arguments (the
extra unit argument of `set_frequency` and the byte conversion of
`set_antenna` are elided). Float arguments are carried as exact
rationals: the engine passes them through unchanged. -/
inductive DevCall where
  | set_antenna (d : Dir) (chan : Nat) (name : String)
  | set_bandwidth (d : Dir) (chan : Nat) (hz : ℚ)
  | set_frequency (d : Dir) (chan : Nat) (hz : ℚ)
  | set_gain (d : Dir) (chan : Nat) (db : ℚ)
  | set_sample_rate (d : Dir) (chan : Nat) (hz : ℚ)
deriving DecidableEq, Repr

/-- Oracle model of a live `soapysdr::Device`: for each possible call,
whether the hardware accepts it. -/
structure Device where
  ok : DevCall → Bool

/-- Modelled from the spec: the direction selector `SoapyDirection` is
referenced by `apply_config` (src/blocks/soapy/mod.rs) but its definition
is not among the provided sources. Per the spec, the selector ranges over
Default, Rx, Tx, Both and None, where Default defers to the default of
the enclosing scope and None means no direction. -/
inductive SoapyDirection where
  | Default
  | Rx
  | Tx
  | Both
  | None
deriving DecidableEq, Repr

/-- Modelled from the spec: resolve a selector against a default
(Default defers to the given default, every other selector stands for
itself). -/
def SoapyDirection.resolve (d defaultDir : SoapyDirection) : SoapyDirection :=
  match d with
  | .Default => defaultDir
  | x => x

/-- Modelled from the spec: `SoapyDirection::is_rx(default)` — whether
the selector, resolved against the given default, includes the Rx
direction (Rx or Both). -/
def SoapyDirection.is_rx (d defaultDir : SoapyDirection) : Bool :=
  match d.resolve defaultDir with
  | .Rx => true
  | .Both => true
  | _ => false

/-- Modelled from the spec: `SoapyDirection::is_tx(default)` — whether
the selector, resolved against the given default, includes the Tx
direction (Tx or Both). -/
def SoapyDirection.is_tx (d defaultDir : SoapyDirection) : Bool :=
  match d.resolve defaultDir with
  | .Tx => true
  | .Both => true
  | _ => false

/-- Modelled from the spec: the `SoapyConfigItem` enum is used by
`apply_config` (src/blocks/soapy/mod.rs lines 133-183), the builders, the
tests and the examples, but its definition is not among the provided
sources. Its variants and payload types are fixed by those uses: one
typed device setting or scope selector per item. -/
inductive SoapyConfigItem where
  | Antenna (name : String)
  | Bandwidth (hz : ℚ)
  | Channel (chan : Option Nat)
  | Direction (d : SoapyDirection)
  | Freq (hz : ℚ)
  | Gain (db : ℚ)
  | SampleRate (hz : ℚ)
deriving DecidableEq, Repr

/-- `SoapyDevSpec` (src/blocks/soapy/config.rs lines 32-36). -/
inductive SoapyDevSpec where
  | Filter (s : String)
  | Dev (d : Device)

/-- `SoapyInitConfig` (src/blocks/soapy/config.rs lines 224-238), with
the initial settings carried as a Configuration Sequence as consumed by
`apply_config` in src/blocks/soapy/mod.rs. -/
structure SoapyInitConfig where
  dev : SoapyDevSpec := .Filter ""
  chans : List Nat := []
  activate_time : Option Int := none
  config : List SoapyConfigItem := []

/-- The state of `SoapyDevice<T>` (src/blocks/soapy/mod.rs lines 34-39):
the optional device handle, the stored (un-normalized) initialization
configuration, and the channel list of the session (the stream handle
plays no part in the claims). -/
structure SoapyDevice where
  dev : Option Device
  init_cfg : SoapyInitConfig
  chans : List Nat

/-- The `update_dir` closure of `apply_config` (src/blocks/soapy/mod.rs
lines 120-127): turn a selector into the concrete direction list, using
the captured block default. -/
def update_dir (defaultDir d : SoapyDirection) : List Dir :=
  match d.is_rx defaultDir, d.is_tx defaultDir with
  | false, true => [.Tx]
  | true, false => [.Rx]
  | true, true => [.Rx, .Tx]
  | _, _ => []

/-- Issue a list of device calls in order, stopping at the first call the
device rejects. Returns the calls actually issued (the failing one
included, since it reached the hardware) and the failing call if any
(the error value the question-mark operator propagates). -/
def issueCalls (dev : Device) : List DevCall → List DevCall × Option DevCall
  | [] => ([], none)
  | c :: rest =>
    if dev.ok c then
      let next := issueCalls dev rest
      (c :: next.1, next.2)
    else ([c], some c)

/-- The item walk of `apply_config` (src/blocks/soapy/mod.rs lines
133-183): thread the active channel list and direction flags through the
items in order; a setting item issues one call per active direction and
channel (directions outer, channels inner, as in the nested source
loops), and the first failing call aborts the walk. Returns the issued
calls in order and either the failing call or the final scope. -/
def applyGo (dev : Device) (selfChans : List Nat) (defaultDir : SoapyDirection) :
    List SoapyConfigItem → List Nat → List Dir →
    List DevCall × Except DevCall (List Nat × List Dir)
  | [], chans, dirs => ([], .ok (chans, dirs))
  | .Antenna a :: rest, chans, dirs =>
    match issueCalls dev (dirs.flatMap fun d => chans.map fun c => DevCall.set_antenna d c a) with
    | (tr, some f) => (tr, .error f)
    | (tr, none) =>
      (tr ++ (applyGo dev selfChans defaultDir rest chans dirs).1,
       (applyGo dev selfChans defaultDir rest chans dirs).2)
  | .Bandwidth bw :: rest, chans, dirs =>
    match issueCalls dev (dirs.flatMap fun d => chans.map fun c => DevCall.set_bandwidth d c bw) with
    | (tr, some f) => (tr, .error f)
    | (tr, none) =>
      (tr ++ (applyGo dev selfChans defaultDir rest chans dirs).1,
       (applyGo dev selfChans defaultDir rest chans dirs).2)
  | .Channel (some c) :: rest, _chans, dirs =>
    applyGo dev selfChans defaultDir rest [c] dirs
  | .Channel none :: rest, _chans, dirs =>
    applyGo dev selfChans defaultDir rest selfChans dirs
  | .Direction d :: rest, chans, _dirs =>
    applyGo dev selfChans defaultDir rest chans (update_dir defaultDir d)
  | .Freq freq :: rest, chans, dirs =>
    match issueCalls dev (dirs.flatMap fun d => chans.map fun c => DevCall.set_frequency d c freq) with
    | (tr, some f) => (tr, .error f)
    | (tr, none) =>
      (tr ++ (applyGo dev selfChans defaultDir rest chans dirs).1,
       (applyGo dev selfChans defaultDir rest chans dirs).2)
  | .Gain g :: rest, chans, dirs =>
    match issueCalls dev (dirs.flatMap fun d => chans.map fun c => DevCall.set_gain d c g) with
    | (tr, some f) => (tr, .error f)
    | (tr, none) =>
      (tr ++ (applyGo dev selfChans defaultDir rest chans dirs).1,
       (applyGo dev selfChans defaultDir rest chans dirs).2)
  | .SampleRate r :: rest, chans, dirs =>
    match issueCalls dev (dirs.flatMap fun d => chans.map fun c => DevCall.set_sample_rate d c r) with
    | (tr, some f) => (tr, .error f)
    | (tr, none) =>
      (tr ++ (applyGo dev selfChans defaultDir rest chans dirs).1,
       (applyGo dev selfChans defaultDir rest chans dirs).2)

/-- `apply_config` (src/blocks/soapy/mod.rs lines 105-185). Without a
device handle it logs a warning and returns Ok having issued nothing;
with one it walks the items starting from all session channels and the
directions resolved from the block default (the source initializes
`dir_flags` by applying its `update_dir` closure to `default_dir`
itself). Returns the issued calls and either unit or the failing call. -/
def apply_config (self : SoapyDevice) (cfg : List SoapyConfigItem)
    (defaultDir : SoapyDirection) : List DevCall × Except DevCall Unit :=
  match self.dev with
  | none => ([], .ok ())
  | some dev =>
    match applyGo dev self.chans defaultDir cfg self.chans
        (update_dir defaultDir defaultDir) with
    | (tr, .ok _) => (tr, .ok ())
    | (tr, .error f) => (tr, .error f)

/-- `apply_init_config` (src/blocks/soapy/mod.rs lines 187-210): acquire
the device handle per the stored specifier — adopting a given handle, or
looking one up from a filter string through the given environment, a
failed lookup being fatal (`bail!`) — then overwrite the session channel
list with the stored, un-normalized `init_cfg.chans` (line 207), then
run the apply engine over the initial sequence. Returns the updated
session state, the issued calls, and the result the question-mark
operator propagates (the device-init or hardware error). -/
def apply_init_config (lookup : String → Option Device)
    (self : SoapyDevice) (defaultDir : SoapyDirection) :
    SoapyDevice × List DevCall × Except String Unit :=
  let cfg := self.init_cfg
  let acquired : Except String Device :=
    match cfg.dev with
    | .Dev d => .ok d
    | .Filter f =>
      match lookup f with
      | some d => .ok d
      | none => .error "Soapy device init error"
  match acquired with
  | .error e => (self, [], .error e)
  | .ok d =>
    let self2 : SoapyDevice :=
      { dev := some d, init_cfg := self.init_cfg, chans := cfg.chans }
    let res := apply_config self2 cfg.config defaultDir
    (self2, res.1,
      match res.2 with
      | .ok _ => .ok ()
      | .error _ => .error "hardware call failed")

/-- The device-state construction of `SoapySource::new`
(src/blocks/soapy/source.rs lines 21-46): clone the configured channel
list, pushing channel 0 when it is empty; the raw `init_cfg` is stored
unchanged and the device handle starts absent. Stream ports and message
handlers are not modelled. -/
def SoapySource.new (init_cfg : SoapyInitConfig) : SoapyDevice :=
  { dev := none
    init_cfg := init_cfg
    chans := if init_cfg.chans.isEmpty then init_cfg.chans ++ [0] else init_cfg.chans }

/-- The device-state construction of `SoapySink::new`
(src/blocks/soapy/sink.rs lines 25-57): identical channel-list
normalization, with the raw `init_cfg` stored unchanged. -/
def SoapySink.new (init_cfg : SoapyInitConfig) : SoapyDevice :=
  { dev := none
    init_cfg := init_cfg
    chans := if init_cfg.chans.isEmpty then init_cfg.chans ++ [0] else init_cfg.chans }

/-! Shared helper lemmas. -/

/-- A device that accepts every call issues the whole list. -/
theorem issueCalls_all_ok (dev : Device) (hok : ∀ c, dev.ok c = true) :
    ∀ l : List DevCall, issueCalls dev l = (l, none) := by
  intro l
  induction l with
  | nil => rfl
  | cons c rest ih => simp [issueCalls, hok c, ih]

/-- Once the walk of a prefix ends in a failing call, appending further
items changes neither the issued calls nor the error. -/
theorem applyGo_error_stops (dev : Device) (sc : List Nat)
    (dd : SoapyDirection) (ys : List SoapyConfigItem) :
    ∀ (xs : List SoapyConfigItem) (chans : List Nat) (dirs : List Dir)
      (t : List DevCall) (f : DevCall),
      applyGo dev sc dd xs chans dirs = (t, .error f) →
      applyGo dev sc dd (xs ++ ys) chans dirs = (t, .error f) := by
  intro xs
  induction xs with
  | nil => intro chans dirs t f h; simp [applyGo] at h
  | cons i rest ih =>
    intro chans dirs t f h
    cases i with
    | Antenna a =>
      simp only [List.cons_append, applyGo] at h ⊢
      rcases hic : issueCalls dev
          (dirs.flatMap fun d => chans.map fun c => DevCall.set_antenna d c a)
        with ⟨tr, _ | fc⟩
      · rw [hic] at h
        rcases hn : applyGo dev sc dd rest chans dirs with ⟨t1, r1⟩
        rw [hn] at h
        have h2 : (tr ++ t1, r1) = (t, Except.error f) := h
        cases r1 with
        | ok s => exact absurd h2 (by simp)
        | error f1 =>
          injection h2 with h3 h4
          injection h4 with h5
          show (tr ++ (applyGo dev sc dd (rest ++ ys) chans dirs).1,
              (applyGo dev sc dd (rest ++ ys) chans dirs).2) = (t, Except.error f)
          rw [ih chans dirs t1 f1 hn]
          simp [h3, h5]
      · rw [hic] at h
        exact h
    | Bandwidth bw =>
      simp only [List.cons_append, applyGo] at h ⊢
      rcases hic : issueCalls dev
          (dirs.flatMap fun d => chans.map fun c => DevCall.set_bandwidth d c bw)
        with ⟨tr, _ | fc⟩
      · rw [hic] at h
        rcases hn : applyGo dev sc dd rest chans dirs with ⟨t1, r1⟩
        rw [hn] at h
        have h2 : (tr ++ t1, r1) = (t, Except.error f) := h
        cases r1 with
        | ok s => exact absurd h2 (by simp)
        | error f1 =>
          injection h2 with h3 h4
          injection h4 with h5
          show (tr ++ (applyGo dev sc dd (rest ++ ys) chans dirs).1,
              (applyGo dev sc dd (rest ++ ys) chans dirs).2) = (t, Except.error f)
          rw [ih chans dirs t1 f1 hn]
          simp [h3, h5]
      · rw [hic] at h
        exact h
    | Channel oc =>
      cases oc with
      | some c => exact ih _ _ _ _ h
      | none => exact ih _ _ _ _ h
    | Direction d => exact ih _ _ _ _ h
    | Freq freq =>
      simp only [List.cons_append, applyGo] at h ⊢
      rcases hic : issueCalls dev
          (dirs.flatMap fun d => chans.map fun c => DevCall.set_frequency d c freq)
        with ⟨tr, _ | fc⟩
      · rw [hic] at h
        rcases hn : applyGo dev sc dd rest chans dirs with ⟨t1, r1⟩
        rw [hn] at h
        have h2 : (tr ++ t1, r1) = (t, Except.error f) := h
        cases r1 with
        | ok s => exact absurd h2 (by simp)
        | error f1 =>
          injection h2 with h3 h4
          injection h4 with h5
          show (tr ++ (applyGo dev sc dd (rest ++ ys) chans dirs).1,
              (applyGo dev sc dd (rest ++ ys) chans dirs).2) = (t, Except.error f)
          rw [ih chans dirs t1 f1 hn]
          simp [h3, h5]
      · rw [hic] at h
        exact h
    | Gain g =>
      simp only [List.cons_append, applyGo] at h ⊢
      rcases hic : issueCalls dev
          (dirs.flatMap fun d => chans.map fun c => DevCall.set_gain d c g)
        with ⟨tr, _ | fc⟩
      · rw [hic] at h
        rcases hn : applyGo dev sc dd rest chans dirs with ⟨t1, r1⟩
        rw [hn] at h
        have h2 : (tr ++ t1, r1) = (t, Except.error f) := h
        cases r1 with
        | ok s => exact absurd h2 (by simp)
        | error f1 =>
          injection h2 with h3 h4
          injection h4 with h5
          show (tr ++ (applyGo dev sc dd (rest ++ ys) chans dirs).1,
              (applyGo dev sc dd (rest ++ ys) chans dirs).2) = (t, Except.error f)
          rw [ih chans dirs t1 f1 hn]
          simp [h3, h5]
      · rw [hic] at h
        exact h
    | SampleRate r =>
      simp only [List.cons_append, applyGo] at h ⊢
      rcases hic : issueCalls dev
          (dirs.flatMap fun d => chans.map fun c => DevCall.set_sample_rate d c r)
        with ⟨tr, _ | fc⟩
      · rw [hic] at h
        rcases hn : applyGo dev sc dd rest chans dirs with ⟨t1, r1⟩
        rw [hn] at h
        have h2 : (tr ++ t1, r1) = (t, Except.error f) := h
        cases r1 with
        | ok s => exact absurd h2 (by simp)
        | error f1 =>
          injection h2 with h3 h4
          injection h4 with h5
          show (tr ++ (applyGo dev sc dd (rest ++ ys) chans dirs).1,
              (applyGo dev sc dd (rest ++ ys) chans dirs).2) = (t, Except.error f)
          rw [ih chans dirs t1 f1 hn]
          simp [h3, h5]
      · rw [hic] at h
        exact h


/-- A value outside the four numeric variants fails `pmt_to_f64`. -/
theorem pmt_to_f64_not_numeric (v : Pmt) (hv : v.isNumeric = false) :
    pmt_to_f64 v = .error "cant convert PMT to f64" := by
  cases v <;> simp_all [Pmt.isNumeric, pmt_to_f64]

/-- A value outside the four numeric variants fails `pmt_to_usize`. -/
theorem pmt_to_usize_not_numeric (v : Pmt) (hv : v.isNumeric = false) :
    pmt_to_usize v = .error "cant convert PMT to usize" := by
  cases v <;> simp_all [Pmt.isNumeric, pmt_to_usize]

/-- An unrecognized key leaves the configuration unchanged (the warn and
skip arm). -/
theorem applyMapEntry_unrecognized (cfg : SoapyConfig) (k : String) (v : Pmt)
    (hk : k ∉ (["antenna", "bandwidth", "chan", "freq", "gain", "rate"] : List String)) :
    applyMapEntry cfg k v = .ok cfg := by
  simp only [List.mem_cons, List.not_mem_nil, or_false, not_or] at hk
  obtain ⟨h1, h2, h3, h4, h5, h6⟩ := hk
  unfold applyMapEntry
  split <;> simp_all

/-- A recognized numeric key with a value that is not numeric-coercible
makes the entry fail with the conversion error. -/
theorem applyMapEntry_numKey_err (cfg : SoapyConfig) (k : String) (v : Pmt)
    (hk : k = "bandwidth" ∨ k = "chan" ∨ k = "freq" ∨ k = "gain" ∨ k = "rate")
    (hv : v.isNumeric = false) :
    ∃ e, applyMapEntry cfg k v = .error e := by
  have hf := pmt_to_f64_not_numeric v hv
  have hu := pmt_to_usize_not_numeric v hv
  rcases hk with rfl | rfl | rfl | rfl | rfl
  · exact ⟨"cant convert PMT to f64", by
      cases v <;> (simp_all [applyMapEntry]; rfl)⟩
  · exact ⟨"cant convert PMT to usize", by
      cases v <;> (simp_all [applyMapEntry]; rfl)⟩
  · exact ⟨"cant convert PMT to f64", by
      cases v <;> (simp_all [applyMapEntry]; rfl)⟩
  · exact ⟨"cant convert PMT to f64", by
      cases v <;> (simp_all [applyMapEntry]; rfl)⟩
  · exact ⟨"cant convert PMT to f64", by
      cases v <;> (simp_all [applyMapEntry]; rfl)⟩

/-- Skipped entries drop out of the entry loop entirely. -/
theorem tryFromEntries_skip (l1 l2 : List (String × Pmt)) (k : String) (v : Pmt)
    (hk : k ∉ (["antenna", "bandwidth", "chan", "freq", "gain", "rate"] : List String)) :
    ∀ cfg, tryFromEntries cfg (l1 ++ (k, v) :: l2) = tryFromEntries cfg (l1 ++ l2) := by
  induction l1 with
  | nil =>
    intro cfg
    simp only [List.nil_append, tryFromEntries]
    rw [applyMapEntry_unrecognized cfg k v hk]
    rfl
  | cons p rest ih =>
    intro cfg
    obtain ⟨n, w⟩ := p
    cases hw : applyMapEntry cfg n w <;>
      simp [tryFromEntries, hw, ih]

/-- A failing numeric entry anywhere in the map fails the whole entry
loop, regardless of iteration order. -/
theorem tryFromEntries_numKey_err (l1 l2 : List (String × Pmt)) (k : String) (v : Pmt)
    (hk : k = "bandwidth" ∨ k = "chan" ∨ k = "freq" ∨ k = "gain" ∨ k = "rate")
    (hv : v.isNumeric = false) :
    ∀ cfg, ∃ e, tryFromEntries cfg (l1 ++ (k, v) :: l2) = .error e := by
  induction l1 with
  | nil =>
    intro cfg
    obtain ⟨e, he⟩ := applyMapEntry_numKey_err cfg k v hk hv
    refine ⟨e, ?_⟩
    simp only [List.nil_append, tryFromEntries]
    rw [he]
    rfl
  | cons p rest ih =>
    intro cfg
    obtain ⟨n, w⟩ := p
    cases hw : applyMapEntry cfg n w with
    | error e =>
      refine ⟨e, ?_⟩
      simp only [List.cons_append, tryFromEntries]
      rw [hw]
      rfl
    | ok cfg2 =>
      obtain ⟨e, he⟩ := ih cfg2
      refine ⟨e, ?_⟩
      simp only [List.cons_append, tryFromEntries]
      rw [hw]
      exact he

/-- Values of different variants never compare equal under the `Pmt`
equality (the catch-all arm of the source match). -/
theorem pmt_beq_cross (p q : Pmt) (h : p.tag ≠ q.tag) : Pmt.beq p q = false := by
  cases p <;> cases q <;> first | exact absurd rfl h | rfl

/-! Claim theorems. -/

/-- C1 counterexample: applying `[Channel(Some 1), Direction(Tx),
SampleRate(2e6)]` on a 2-channel Rx session issues exactly one call
`set_sample_rate(Tx, 1, 2e6)` and no `set_sample_rate(Rx, 0, 2e6)` call:
the SampleRate arm of `apply_config` is not special-cased to Rx channel
0, it follows the active scope. -/
theorem sample_rate_scope_cex :
    (apply_config ⟨some ⟨fun _ => true⟩, {}, [0, 1]⟩
        [.Channel (some 1), .Direction .Tx, .SampleRate 2000000] .Rx).1
      = [.set_sample_rate .Tx 1 2000000]
    ∧ DevCall.set_sample_rate .Rx 0 2000000 ∉
        (apply_config ⟨some ⟨fun _ => true⟩, {}, [0, 1]⟩
          [.Channel (some 1), .Direction .Tx, .SampleRate 2000000] .Rx).1 :=
  ⟨rfl, by decide⟩

/-- C1 amended: a SampleRate item is applied to every combination of the
currently active direction set and channel set, exactly like the other
setting items; in particular the sequence of the spec issues the one call
`set_sample_rate(Tx, 1, rate)`. -/
theorem sample_rate_follows_scope
    (dev : Device) (hok : ∀ c, dev.ok c = true)
    (sc chans : List Nat) (dd : SoapyDirection) (r : ℚ)
    (rest : List SoapyConfigItem) (dirs : List Dir) :
    applyGo dev sc dd (.SampleRate r :: rest) chans dirs
      = ((dirs.flatMap fun d => chans.map fun c => DevCall.set_sample_rate d c r)
           ++ (applyGo dev sc dd rest chans dirs).1,
         (applyGo dev sc dd rest chans dirs).2)
    ∧ apply_config ⟨some dev, {}, [0, 1]⟩
        [.Channel (some 1), .Direction .Tx, .SampleRate r] .Rx
      = ([.set_sample_rate .Tx 1 r], .ok ()) := by
  have hic := issueCalls_all_ok dev hok
  constructor
  · simp only [applyGo, hic]
  · simp only [apply_config, applyGo, hic]
    rfl

/-- C1 witness for the amended theorem, at an accepting device. -/
theorem sample_rate_follows_scope_witness :
    apply_config ⟨some ⟨fun _ => true⟩, {}, [0, 1]⟩
        [.Channel (some 1), .Direction .Tx, .SampleRate 2000000] .Rx
      = ([.set_sample_rate .Tx 1 2000000], .ok ()) :=
  (sample_rate_follows_scope ⟨fun _ => true⟩ (fun _ => rfl) [0, 1] [0, 1]
    .Rx 2000000 [] []).2

/-- C2 counterexample: a map whose single entry has the recognized key
"gain" and a non-numeric value makes the whole conversion fail with the
conversion error, instead of being skipped with a warning. -/
theorem legacy_map_bad_value_cex :
    SoapyConfig.try_from (.MapStrPmt [("gain", .String "x")])
      = .error "cant convert PMT to f64" := rfl

/-- C2 amended: an entry with one of the recognized numeric keys
(bandwidth, chan, freq, gain, rate) whose value is not numeric-coercible
makes the whole map conversion fail with the conversion error, wherever
the entry sits in the iteration order; the skip-with-warning leniency
applies only to unrecognized keys (and to antenna entries whose value is
not a String). -/
theorem legacy_map_numeric_key_bad_value_fails
    (l1 l2 : List (String × Pmt)) (k : String) (v : Pmt)
    (hk : k = "bandwidth" ∨ k = "chan" ∨ k = "freq" ∨ k = "gain" ∨ k = "rate")
    (hv : v.isNumeric = false) :
    ∃ e, SoapyConfig.try_from (.MapStrPmt (l1 ++ (k, v) :: l2)) = .error e :=
  tryFromEntries_numKey_err l1 l2 k v hk hv {}

/-- C2 witness for the amended theorem: a bad gain entry after a good
freq entry fails the conversion. -/
theorem legacy_map_numeric_key_bad_value_fails_witness :
    ∃ e, SoapyConfig.try_from
        (.MapStrPmt [("freq", .F64 (.fin 100)), ("gain", .String "x")])
      = .error e :=
  legacy_map_numeric_key_bad_value_fails [("freq", .F64 (.fin 100))] []
    "gain" (.String "x") (.inr (.inr (.inr (.inl rfl)))) rfl

/-- C3: an entry with an unrecognized key drops out of the conversion
entirely — the result on any map containing it equals the result on the
same map without it, in the same iteration order — and the empty map
converts to the default (empty) configuration. -/
theorem legacy_map_unrecognized_key_skipped
    (l1 l2 : List (String × Pmt)) (k : String) (v : Pmt)
    (hk : k ∉ (["antenna", "bandwidth", "chan", "freq", "gain", "rate"] : List String)) :
    SoapyConfig.try_from (.MapStrPmt (l1 ++ (k, v) :: l2))
      = SoapyConfig.try_from (.MapStrPmt (l1 ++ l2))
    ∧ SoapyConfig.try_from (.MapStrPmt []) = .ok {} :=
  ⟨tryFromEntries_skip l1 l2 k v hk {}, rfl⟩

/-- C3 witness: a bogus entry ahead of a freq entry does not change the
conversion result. -/
theorem legacy_map_unrecognized_key_skipped_witness :
    SoapyConfig.try_from (.MapStrPmt [("bogus", .U32 1), ("freq", .F64 (.fin 100))])
      = SoapyConfig.try_from (.MapStrPmt [("freq", .F64 (.fin 100))])
    ∧ SoapyConfig.try_from (.MapStrPmt []) = .ok {} :=
  legacy_map_unrecognized_key_skipped [] [("freq", .F64 (.fin 100))] "bogus"
    (.U32 1) (by decide)

/-- C4: a Channel(Some i) item replaces the active channel list with
exactly [i] and a Channel(None) item resets it to all session channels,
independently of the previous scope; consequently the order-sensitivity
sequence of the spec issues gain 3 to both channels of a 2-channel Rx
session and never issues gain 2 to channel 0. -/
theorem channel_scope_semantics :
    (∀ (dev : Device) (sc : List Nat) (dd : SoapyDirection) (i : Nat)
        (rest : List SoapyConfigItem) (chans : List Nat) (dirs : List Dir),
        applyGo dev sc dd (.Channel (some i) :: rest) chans dirs
          = applyGo dev sc dd rest [i] dirs)
    ∧ (∀ (dev : Device) (sc : List Nat) (dd : SoapyDirection)
        (rest : List SoapyConfigItem) (chans : List Nat) (dirs : List Dir),
        applyGo dev sc dd (.Channel none :: rest) chans dirs
          = applyGo dev sc dd rest sc dirs)
    ∧ apply_config ⟨some ⟨fun _ => true⟩, {}, [0, 1]⟩
        [.Channel (some 1), .Gain 2, .Channel none, .Gain 3] .Rx
      = ([.set_gain .Rx 1 2, .set_gain .Rx 0 3, .set_gain .Rx 1 3], .ok ())
    ∧ DevCall.set_gain .Rx 0 2 ∉
        (apply_config ⟨some ⟨fun _ => true⟩, {}, [0, 1]⟩
          [.Channel (some 1), .Gain 2, .Channel none, .Gain 3] .Rx).1 :=
  ⟨fun _ _ _ _ _ _ _ => rfl, fun _ _ _ _ _ _ => rfl, rfl, by decide⟩

/-- C5: a Direction(d) item computes the new active direction list from
the selector and the block default alone — the previous active directions
do not occur in the result — and the resolution table is Default to the
block default, Rx to [Rx], Tx to [Tx], Both to [Rx, Tx], None to []. -/
theorem direction_scope_semantics :
    (∀ (dev : Device) (sc : List Nat) (dd d : SoapyDirection)
        (rest : List SoapyConfigItem) (chans : List Nat) (dirs : List Dir),
        applyGo dev sc dd (.Direction d :: rest) chans dirs
          = applyGo dev sc dd rest chans (update_dir dd d))
    ∧ (∀ dd, update_dir dd .Rx = [.Rx])
    ∧ (∀ dd, update_dir dd .Tx = [.Tx])
    ∧ (∀ dd, update_dir dd .Both = [.Rx, .Tx])
    ∧ (∀ dd, update_dir dd .None = [])
    ∧ (∀ dd, update_dir dd .Default = update_dir dd dd) :=
  ⟨fun _ _ _ _ _ _ _ => rfl, fun _ => rfl, fun _ => rfl, fun _ => rfl,
    fun _ => rfl, fun dd => by cases dd <;> rfl⟩

/-- C6: when applying a prefix of a sequence ends in a failing device
call, appending further items changes nothing: the same calls have been
issued (those already issued stay issued, nothing is rolled back), no
call is issued for any later item, and the same error is returned. -/
theorem apply_config_error_short_circuits
    (self : SoapyDevice) (dd : SoapyDirection) (xs ys : List SoapyConfigItem)
    (t : List DevCall) (f : DevCall)
    (h : apply_config self xs dd = (t, .error f)) :
    apply_config self (xs ++ ys) dd = (t, .error f) := by
  obtain ⟨od, icfg, chans⟩ := self
  cases od with
  | none => simp [apply_config] at h
  | some dev =>
    simp only [apply_config] at h ⊢
    rcases hg : applyGo dev chans dd xs chans (update_dir dd dd) with ⟨t1, r1⟩
    rw [hg] at h
    cases r1 with
    | ok s => exact absurd h (by simp)
    | error f1 =>
      rw [applyGo_error_stops dev chans dd ys xs chans (update_dir dd dd) t1 f1 hg]
      exact h

/-- C6 witness: on a rejecting device, the failing first item makes the
second item issue nothing and the error propagate. -/
theorem apply_config_error_short_circuits_witness :
    apply_config ⟨some ⟨fun _ => false⟩, {}, [0]⟩ [.Gain 1, .Freq 2] .Rx
      = ([.set_gain .Rx 0 1], .error (.set_gain .Rx 0 1)) :=
  apply_config_error_short_circuits ⟨some ⟨fun _ => false⟩, {}, [0]⟩ .Rx
    [.Gain 1] [.Freq 2] [.set_gain .Rx 0 1] (.set_gain .Rx 0 1) rfl

/-- C7: applying any sequence to a session whose device handle is absent
issues no device calls and returns success. -/
theorem apply_config_no_device_noop (icfg : SoapyInitConfig) (chans : List Nat)
    (cfg : List SoapyConfigItem) (dd : SoapyDirection) :
    apply_config ⟨none, icfg, chans⟩ cfg dd = ([], .ok ()) := rfl

/-- C8: `Pmt` equality is structural on every non-extension variant pair
(same-variant pairs delegate to the payload equality, different-variant
pairs are unequal) while a value holding an Any or AnySerde payload is
never equal to any value, itself included. -/
theorem pmt_eq_structural_except_extensions :
    (Pmt.beq .Null .Null = true)
    ∧ (∀ x y : String, Pmt.beq (.String x) (.String y) = (x == y))
    ∧ (∀ x y : Nat, Pmt.beq (.U32 x) (.U32 y) = (x == y))
    ∧ (∀ x y : Nat, Pmt.beq (.U64 x) (.U64 y) = (x == y))
    ∧ (∀ x y : Rf, Pmt.beq (.F32 x) (.F32 y) = Rf.beq x y)
    ∧ (∀ x y : Rf, Pmt.beq (.F64 x) (.F64 y) = Rf.beq x y)
    ∧ (∀ x y : List Rf, Pmt.beq (.VecF32 x) (.VecF32 y) = listEqBy Rf.beq x y)
    ∧ (∀ x y : List Nat, Pmt.beq (.VecU64 x) (.VecU64 y) = (x == y))
    ∧ (∀ x y : List Nat, Pmt.beq (.Blob x) (.Blob y) = (x == y))
    ∧ (∀ x y : List Pmt, Pmt.beq (.VecPmt x) (.VecPmt y) = Pmt.vecBeq x y)
    ∧ (∀ (a b : Pmt) (x y : List Pmt),
        Pmt.beq (.VecPmt (a :: x)) (.VecPmt (b :: y))
          = (Pmt.beq a b && Pmt.beq (.VecPmt x) (.VecPmt y)))
    ∧ (∀ x y : List (String × Pmt),
        Pmt.beq (.MapStrPmt x) (.MapStrPmt y)
          = (x.length == y.length && Pmt.mapSub x y))
    ∧ (∀ p q : Pmt, p.tag ≠ q.tag → Pmt.beq p q = false)
    ∧ (∀ (a : AnyPayload) (q : Pmt),
        Pmt.beq (.Any a) q = false ∧ Pmt.beq q (.Any a) = false
        ∧ Pmt.beq (.AnySerde a) q = false ∧ Pmt.beq q (.AnySerde a) = false)
    ∧ (∀ a : AnyPayload,
        Pmt.beq (.Any a) (.Any a) = false
        ∧ Pmt.beq (.AnySerde a) (.AnySerde a) = false) :=
  ⟨rfl, fun _ _ => rfl, fun _ _ => rfl, fun _ _ => rfl, fun _ _ => rfl,
    fun _ _ => rfl, fun _ _ => rfl, fun _ _ => rfl, fun _ _ => rfl,
    fun _ _ => rfl, fun _ _ _ _ => rfl, fun _ _ => rfl, pmt_beq_cross,
    fun a q => ⟨by cases q <;> rfl, by cases q <;> rfl,
      by cases q <;> rfl, by cases q <;> rfl⟩,
    fun a => ⟨rfl, rfl⟩⟩

/-- C8 witness for the different-variant conjunct, at Null versus U32. -/
theorem pmt_eq_structural_except_extensions_witness :
    Pmt.beq .Null (.U32 7) = false :=
  pmt_eq_structural_except_extensions.2.2.2.2.2.2.2.2.2.2.2.2.1
    .Null (.U32 7) (by decide)

/-- C9: `pmt_to_f64` succeeds with the widened value exactly on the F64,
F32, U32 and U64 variants and fails with the conversion error on every
other variant. -/
theorem pmt_to_f64_characterization :
    (∀ v : Rf, pmt_to_f64 (.F64 v) = .ok v)
    ∧ (∀ v : Rf, pmt_to_f64 (.F32 v) = .ok v)
    ∧ (∀ v : Nat, pmt_to_f64 (.U32 v) = .ok (.fin v))
    ∧ (∀ v : Nat, pmt_to_f64 (.U64 v) = .ok (.fin v))
    ∧ pmt_to_f64 .Null = .error "cant convert PMT to f64"
    ∧ (∀ s : String, pmt_to_f64 (.String s) = .error "cant convert PMT to f64")
    ∧ (∀ v : List Rf, pmt_to_f64 (.VecF32 v) = .error "cant convert PMT to f64")
    ∧ (∀ v : List Nat, pmt_to_f64 (.VecU64 v) = .error "cant convert PMT to f64")
    ∧ (∀ v : List Nat, pmt_to_f64 (.Blob v) = .error "cant convert PMT to f64")
    ∧ (∀ v : List Pmt, pmt_to_f64 (.VecPmt v) = .error "cant convert PMT to f64")
    ∧ (∀ m : List (String × Pmt),
        pmt_to_f64 (.MapStrPmt m) = .error "cant convert PMT to f64")
    ∧ (∀ a : AnyPayload, pmt_to_f64 (.Any a) = .error "cant convert PMT to f64")
    ∧ (∀ a : AnyPayload, pmt_to_f64 (.AnySerde a) = .error "cant convert PMT to f64") :=
  ⟨fun _ => rfl, fun _ => rfl, fun _ => rfl, fun _ => rfl, rfl, fun _ => rfl,
    fun _ => rfl, fun _ => rfl, fun _ => rfl, fun _ => rfl, fun _ => rfl,
    fun _ => rfl, fun _ => rfl⟩

/-- C10 counterexample: a source session constructed with an empty
channel list and a pre-existing device handle initializes successfully,
yet afterwards its session channel list is empty — `apply_init_config`
overwrote the constructor-normalized list with the stored, un-normalized
`init_cfg.chans` — so the all-session-channels scope that a
Channel(None) reset restores is the empty set: a Gain item under it
issues zero calls even on an all-accepting attached device. -/
theorem session_channels_after_init_cex :
    (apply_init_config (fun _ => none)
        (SoapySource.new { dev := .Dev ⟨fun _ => true⟩ }) .Rx).1.chans = []
    ∧ (apply_init_config (fun _ => none)
        (SoapySource.new { dev := .Dev ⟨fun _ => true⟩ }) .Rx).2.2 = .ok ()
    ∧ (apply_config
        (apply_init_config (fun _ => none)
          (SoapySource.new { dev := .Dev ⟨fun _ => true⟩ }) .Rx).1
        [.Channel none, .Gain 1] .Rx).1 = [] :=
  ⟨rfl, rfl, rfl⟩

/-- C10 amended: the constructors normalize only the struct channel
field (an empty configured list becomes [0], so between construction and
initialization the session manages at least one channel), but on every
successful initialization `apply_init_config` overwrites the session
channel list with the stored, un-normalized `init_cfg.chans`; a session
constructed with an empty channel list therefore has an empty
all-session-channels scope once initialized. -/
theorem session_channels_normalized_then_overwritten :
    (∀ c : SoapyInitConfig,
        (SoapySource.new c).chans ≠ [] ∧ (SoapySink.new c).chans ≠ []
        ∧ (c.chans = [] →
            (SoapySource.new c).chans = [0] ∧ (SoapySink.new c).chans = [0]))
    ∧ (∀ (lookup : String → Option Device) (self : SoapyDevice)
        (dd : SoapyDirection) (d : Device),
        self.init_cfg.dev = SoapyDevSpec.Dev d →
        (apply_init_config lookup self dd).1.chans = self.init_cfg.chans)
    ∧ (∀ (lookup : String → Option Device) (self : SoapyDevice)
        (dd : SoapyDirection) (f : String) (d : Device),
        self.init_cfg.dev = SoapyDevSpec.Filter f → lookup f = some d →
        (apply_init_config lookup self dd).1.chans = self.init_cfg.chans) := by
  refine ⟨?_, ?_, ?_⟩
  · intro c
    unfold SoapySource.new SoapySink.new
    rcases hc : c.chans with _ | ⟨a, l⟩ <;> simp [hc]
  · intro lookup self dd d h
    simp only [apply_init_config, h]
  · intro lookup self dd f d h hl
    simp only [apply_init_config, h, hl]

/-- C10 witness for the amended theorem: the overwrite conjunct applied
to the empty-constructed source session with an adopted device handle
yields the empty post-init channel list. -/
theorem session_channels_normalized_then_overwritten_witness :
    (apply_init_config (fun _ => none)
        (SoapySource.new { dev := .Dev ⟨fun _ => true⟩ }) .Rx).1.chans = [] :=
  (session_channels_normalized_then_overwritten.2.1 (fun _ => none)
    (SoapySource.new { dev := .Dev ⟨fun _ => true⟩ }) .Rx ⟨fun _ => true⟩
    rfl).trans rfl

/-- C4 witness: the Channel(Some 1) equation instantiated at a concrete
state. -/
theorem channel_scope_semantics_witness :
    applyGo ⟨fun _ => true⟩ [0, 1] .Rx [.Channel (some 1)] [0, 1] [.Rx]
      = applyGo ⟨fun _ => true⟩ [0, 1] .Rx [] [1] [.Rx] :=
  channel_scope_semantics.1 ⟨fun _ => true⟩ [0, 1] .Rx 1 [] [0, 1] [.Rx]

/-- C5 witness: the Both row of the resolution table at block default
Rx. -/
theorem direction_scope_semantics_witness :
    update_dir .Rx .Both = [.Rx, .Tx] :=
  direction_scope_semantics.2.2.2.1 .Rx

/-- C7 witness at a concrete deviceless session. -/
theorem apply_config_no_device_noop_witness :
    apply_config ⟨none, {}, [0, 1]⟩ [.Gain 1] .Rx = ([], .ok ()) :=
  apply_config_no_device_noop {} [0, 1] [.Gain 1] .Rx

/-- C9 witness: the U32 row at a concrete value. -/
theorem pmt_to_f64_characterization_witness :
    pmt_to_f64 (.U32 5) = .ok (.fin 5) :=
  pmt_to_f64_characterization.2.2.1 5

end FutureSDR
